import Mathlib

/-
Verification of the bulwark circuit-breaker core.

Shallow embedding of the TypeScript sources:
  src/src/metrics/SlidingWindow.ts   -> SlidingWindow
  src/src/core/StateManager.ts       -> StateManager (and FailureDetector,
                                        which the repository stores in the
                                        same file after a separator)
  src/unnamed/part_008               -> MetricsCollector
  src/src/core/CircuitBreaker.ts     -> CircuitBreaker
  src/src/types/index.ts             -> CircuitState, configs, records

Modelling conventions:
  - JavaScript numbers (timestamps, durations, thresholds, rates) become ℚ;
    counters that the code only ever increments from 0 become ℕ.
  - `Date.now()` / `new Date()` become an explicit `now : ℚ` argument threaded
    to every operation that reads the clock.
  - `throw` becomes `Except String` (construction, state transitions) or an
    explicit error value in the result of `execute`.
  - The `Promise.race` of the operation against the timeout timer becomes the
    pure function `race`: the call is described by the operation's duration and
    its eventual result, and the race resolves to whichever side settles first
    (the timer wins strictly after `timeout` milliseconds).
  - `JSON.stringify` output is modelled as a `Json` tree; stringification and
    re-parsing of such a tree is the JSON library's identity on these values
    and is external to this repository's code.
-/

namespace Bulwark

/-- `CircuitState` from src/src/types/index.ts. -/
inductive CircuitState where
  | CLOSED
  | OPEN
  | HALF_OPEN
deriving DecidableEq, Repr, Inhabited

/-- `CircuitBreakerConfig` from src/src/types/index.ts. -/
structure CircuitBreakerConfig where
  failureThreshold : ℚ
  failureRateThreshold : ℚ
  timeout : ℚ
  resetTimeout : ℚ
  minimumThroughput : ℚ
deriving DecidableEq, Repr, Inhabited

/-- `DEFAULT_CONFIG` from src/src/types/index.ts. -/
def DEFAULT_CONFIG : CircuitBreakerConfig :=
  { failureThreshold := 5
    failureRateThreshold := 1/2
    timeout := 3000
    resetTimeout := 60000
    minimumThroughput := 10 }

/-- `Partial<CircuitBreakerConfig>`: the constructor argument of
`CircuitBreaker`; every field may be absent. -/
structure PartialConfig where
  failureThreshold : Option ℚ := none
  failureRateThreshold : Option ℚ := none
  timeout : Option ℚ := none
  resetTimeout : Option ℚ := none
  minimumThroughput : Option ℚ := none
deriving DecidableEq, Repr, Inhabited

/-- The spread `{ ...DEFAULT_CONFIG, ...config }` in the `CircuitBreaker`
constructor (src/src/core/CircuitBreaker.ts line 41). -/
def mergeConfig (p : PartialConfig) : CircuitBreakerConfig :=
  { failureThreshold := p.failureThreshold.getD DEFAULT_CONFIG.failureThreshold
    failureRateThreshold :=
      p.failureRateThreshold.getD DEFAULT_CONFIG.failureRateThreshold
    timeout := p.timeout.getD DEFAULT_CONFIG.timeout
    resetTimeout := p.resetTimeout.getD DEFAULT_CONFIG.resetTimeout
    minimumThroughput := p.minimumThroughput.getD DEFAULT_CONFIG.minimumThroughput }

/-- `SlidingWindow<T>` from src/src/metrics/SlidingWindow.ts: an
insertion-ordered list of records plus the capacity `maxSize` (a JavaScript
number, hence ℚ here). -/
structure SlidingWindow (α : Type) where
  records : List α
  maxSize : ℚ
deriving DecidableEq, Repr, Inhabited

/-- The `SlidingWindow` constructor: rejects a non-positive `maxSize`. -/
def SlidingWindow.make (α : Type) (maxSize : ℚ) : Except String (SlidingWindow α) :=
  if maxSize ≤ 0 then .error "maxSize must be greater than 0"
  else .ok { records := [], maxSize := maxSize }

/-- `SlidingWindow.add`: push the record, then shift the oldest one out if the
length exceeds `maxSize`. -/
def SlidingWindow.add {α : Type} (w : SlidingWindow α) (record : α) : SlidingWindow α :=
  let rs := w.records ++ [record]
  if ((rs.length : ℚ) > w.maxSize) then { records := rs.tail, maxSize := w.maxSize }
  else { records := rs, maxSize := w.maxSize }

/-- `SlidingWindow.getAll` (the defensive copy is identity on immutable lists). -/
def SlidingWindow.getAll {α : Type} (w : SlidingWindow α) : List α :=
  w.records

/-- `SlidingWindow.size`. -/
def SlidingWindow.size {α : Type} (w : SlidingWindow α) : ℕ :=
  w.records.length

/-- `SlidingWindow.getMaxSize`. -/
def SlidingWindow.getMaxSize {α : Type} (w : SlidingWindow α) : ℚ :=
  w.maxSize

/-- `SlidingWindow.clear`. -/
def SlidingWindow.clear {α : Type} (w : SlidingWindow α) : SlidingWindow α :=
  { records := [], maxSize := w.maxSize }

/-- `FailureRecord` from src/src/types/index.ts (the `Error | null` field is
modelled as an optional message). -/
structure FailureRecord where
  timestamp : ℚ
  error : Option String
  isFailure : Bool
deriving DecidableEq, Repr, Inhabited

/-- `FailureDetector` from src/src/core (stored after `StateManager` in
src/src/core/StateManager.ts). -/
structure FailureDetector where
  slidingWindow : SlidingWindow FailureRecord
  config : CircuitBreakerConfig
  consecutiveFailures : ℕ
deriving DecidableEq, Repr, Inhabited

/-- The `FailureDetector` constructor: a window of capacity
`minimumThroughput * 2`. -/
def FailureDetector.make (config : CircuitBreakerConfig) :
    Except String FailureDetector := do
  let w ← SlidingWindow.make FailureRecord (config.minimumThroughput * 2)
  .ok { slidingWindow := w, config := config, consecutiveFailures := 0 }

/-- `FailureDetector.recordSuccess`. -/
def FailureDetector.recordSuccess (d : FailureDetector) (now : ℚ)
    (error : Option String) : FailureDetector :=
  { d with
    consecutiveFailures := 0
    slidingWindow :=
      d.slidingWindow.add { timestamp := now, isFailure := false, error := error } }

/-- `FailureDetector.recordFailure`. -/
def FailureDetector.recordFailure (d : FailureDetector) (now : ℚ)
    (error : String) : FailureDetector :=
  { d with
    consecutiveFailures := d.consecutiveFailures + 1
    slidingWindow :=
      d.slidingWindow.add { timestamp := now, isFailure := true, error := some error } }

/-- `FailureDetector.getConsecutiveFailures`. -/
def FailureDetector.getConsecutiveFailures (d : FailureDetector) : ℕ :=
  d.consecutiveFailures

/-- `FailureDetector.getFailureRate`. -/
def FailureDetector.getFailureRate (d : FailureDetector) : ℚ :=
  let records := d.slidingWindow.getAll
  if records.length = 0 then 0
  else ((records.filter (fun r => r.isFailure)).length : ℚ) / (records.length : ℚ)

/-- `FailureDetector.shouldOpenCircuit` (src/src/core/StateManager.ts,
lines 155-171 of the stored file): too few samples means `false`; otherwise
open when the absolute failure count or the failure rate reaches its
threshold. -/
def FailureDetector.shouldOpenCircuit (d : FailureDetector) : Bool :=
  let recentRecords := d.slidingWindow.getAll
  if ((recentRecords.length : ℚ) < d.config.minimumThroughput) then false
  else
    let failures := (recentRecords.filter (fun r => r.isFailure)).length
    let failureRate : ℚ := (failures : ℚ) / (recentRecords.length : ℚ)
    decide (d.config.failureThreshold ≤ (failures : ℚ)
      ∨ d.config.failureRateThreshold ≤ failureRate)

/-- `FailureDetector.reset`. -/
def FailureDetector.reset (d : FailureDetector) : FailureDetector :=
  { d with consecutiveFailures := 0, slidingWindow := d.slidingWindow.clear }

/-- `StateManager` from src/src/core/StateManager.ts. -/
structure StateManager where
  currentState : CircuitState
  lastStateChange : ℚ
deriving DecidableEq, Repr, Inhabited

/-- The `StateManager` constructor: `CLOSED` with a fresh timestamp. -/
def StateManager.make (now : ℚ) : StateManager :=
  { currentState := .CLOSED, lastStateChange := now }

/-- `StateManager.getState`. -/
def StateManager.getState (sm : StateManager) : CircuitState :=
  sm.currentState

/-- `StateManager.getLastStateChange`. -/
def StateManager.getLastStateChange (sm : StateManager) : ℚ :=
  sm.lastStateChange

/-- `StateManager.isValidTransition`: same-state transitions are allowed, plus
the four directed edges of the circuit-breaker pattern. -/
def StateManager.isValidTransition (src tgt : CircuitState) : Bool :=
  if src = tgt then true
  else
    match src, tgt with
    | .CLOSED, .OPEN => true
    | .OPEN, .HALF_OPEN => true
    | .HALF_OPEN, .CLOSED => true
    | .HALF_OPEN, .OPEN => true
    | _, _ => false

/-- `StateManager.transitionTo`: validate, then update the state and the
timestamp together. -/
def StateManager.transitionTo (sm : StateManager) (newState : CircuitState)
    (now : ℚ) : Except String StateManager :=
  if StateManager.isValidTransition sm.currentState newState then
    .ok { currentState := newState, lastStateChange := now }
  else
    .error "Invalid state transition"

/-- `StateManager.reset`: unconditionally back to `CLOSED`. -/
def StateManager.reset (sm : StateManager) (now : ℚ) : StateManager :=
  let _ := sm
  { currentState := .CLOSED, lastStateChange := now }

/-- `CallRecord` from src/src/types/index.ts. -/
structure CallRecord where
  timestamp : ℚ
  isSuccess : Bool
  responseTime : ℚ
  error : Option String
deriving DecidableEq, Repr, Inhabited

/-- `MetricsCollector` from src/unnamed/part_008 (src/metrics/MetricsCollector.ts). -/
structure MetricsCollector where
  totalCalls : ℕ
  successfulCalls : ℕ
  failedCalls : ℕ
  slidingWindow : SlidingWindow CallRecord
  responseTimes : List ℚ
deriving DecidableEq, Repr, Inhabited

/-- The `maxResponseTimes` field of `MetricsCollector` (a constant 100). -/
def MetricsCollector.maxResponseTimes : ℕ := 100

/-- The `MetricsCollector` constructor. -/
def MetricsCollector.make (windowSize : ℚ) : Except String MetricsCollector := do
  let w ← SlidingWindow.make CallRecord windowSize
  .ok { totalCalls := 0, successfulCalls := 0, failedCalls := 0
        slidingWindow := w, responseTimes := [] }

/-- `MetricsCollector.recordResponseTime`: keep only the 100 most recent. -/
def MetricsCollector.recordResponseTime (mc : MetricsCollector)
    (responseTime : ℚ) : List ℚ :=
  let l := mc.responseTimes ++ [responseTime]
  if l.length > MetricsCollector.maxResponseTimes then l.tail else l

/-- `MetricsCollector.recordSuccess`. -/
def MetricsCollector.recordSuccess (mc : MetricsCollector) (responseTime : ℚ)
    (now : ℚ) : MetricsCollector :=
  { mc with
    totalCalls := mc.totalCalls + 1
    successfulCalls := mc.successfulCalls + 1
    responseTimes := mc.recordResponseTime responseTime
    slidingWindow := mc.slidingWindow.add
      { timestamp := now, isSuccess := true, responseTime := responseTime
        error := none } }

/-- `MetricsCollector.recordFailure`. -/
def MetricsCollector.recordFailure (mc : MetricsCollector) (responseTime : ℚ)
    (now : ℚ) (error : Option String) : MetricsCollector :=
  { mc with
    totalCalls := mc.totalCalls + 1
    failedCalls := mc.failedCalls + 1
    responseTimes := mc.recordResponseTime responseTime
    slidingWindow := mc.slidingWindow.add
      { timestamp := now, isSuccess := false, responseTime := responseTime
        error := error } }

/-- `CircuitBreakerMetrics` from src/src/types/index.ts. -/
structure CircuitBreakerMetrics where
  state : CircuitState
  totalCalls : ℕ
  successfulCalls : ℕ
  failedCalls : ℕ
  failureRate : ℚ
  averageResponseTime : ℚ
  lastStateChange : ℚ
  nextAttempt : Option ℚ
deriving DecidableEq, Repr, Inhabited

/-- `MetricsCollector.calculateFailureRate`. -/
def MetricsCollector.calculateFailureRate (mc : MetricsCollector) : ℚ :=
  if mc.totalCalls = 0 then 0 else (mc.failedCalls : ℚ) / (mc.totalCalls : ℚ)

/-- `MetricsCollector.calculateAverageResponseTime`. -/
def MetricsCollector.calculateAverageResponseTime (mc : MetricsCollector) : ℚ :=
  if mc.responseTimes.length = 0 then 0
  else (mc.responseTimes.sum) / (mc.responseTimes.length : ℚ)

/-- `MetricsCollector.getMetrics`: the point-in-time snapshot. -/
def MetricsCollector.getMetrics (mc : MetricsCollector)
    (currentState : CircuitState) (lastStateChange : ℚ)
    (nextAttempt : Option ℚ) : CircuitBreakerMetrics :=
  { state := currentState
    totalCalls := mc.totalCalls
    successfulCalls := mc.successfulCalls
    failedCalls := mc.failedCalls
    failureRate := mc.calculateFailureRate
    averageResponseTime := mc.calculateAverageResponseTime
    lastStateChange := lastStateChange
    nextAttempt := nextAttempt }

/-- `MetricsCollector.getFailureRate` (over the window, not lifetime). -/
def MetricsCollector.getFailureRate (mc : MetricsCollector) : ℚ :=
  let records := mc.slidingWindow.getAll
  if records.length = 0 then 0
  else ((records.filter (fun r => r.isSuccess = false)).length : ℚ) / (records.length : ℚ)

/-- `MetricsCollector.reset`. -/
def MetricsCollector.reset (mc : MetricsCollector) : MetricsCollector :=
  { totalCalls := 0, successfulCalls := 0, failedCalls := 0
    slidingWindow := mc.slidingWindow.clear, responseTimes := [] }

/-- The JSON value tree that `JSON.stringify` serializes in
`MetricsCollector.exportJSON`; stringifying and re-parsing such a tree is the
identity on it. -/
inductive Json where
  | num (q : ℚ)
  | str (s : String)
  | obj (fields : List (String × Json))
deriving Repr

/-- Field access on a parsed JSON object. -/
def Json.lookup : Json → String → Option Json
  | .obj fields, key => fields.lookup key
  | _, _ => none

/-- The serialized form of a `CircuitState` enum value (its string value in
src/src/types/index.ts). -/
def CircuitState.toSerialized : CircuitState → String
  | .CLOSED => "CLOSED"
  | .OPEN => "OPEN"
  | .HALF_OPEN => "HALF_OPEN"

/-- Reading a `CircuitState` back from its serialized string. -/
def CircuitState.ofSerialized (s : String) : Option CircuitState :=
  if s = "CLOSED" then some .CLOSED
  else if s = "OPEN" then some .OPEN
  else if s = "HALF_OPEN" then some .HALF_OPEN
  else none

/-- How `JSON.stringify` lays out a `CircuitBreakerMetrics` object: the field
order of the object literal in `getMetrics`; `nextAttempt` is present only when
supplied; `Date` values serialize through `iso`, the ISO-string rendering of a
timestamp. -/
def CircuitBreakerMetrics.toJson (iso : ℚ → String) (m : CircuitBreakerMetrics) : Json :=
  .obj ([("state", .str m.state.toSerialized),
         ("totalCalls", .num m.totalCalls),
         ("successfulCalls", .num m.successfulCalls),
         ("failedCalls", .num m.failedCalls),
         ("failureRate", .num m.failureRate),
         ("averageResponseTime", .num m.averageResponseTime),
         ("lastStateChange", .str (iso m.lastStateChange))]
    ++ (match m.nextAttempt with
         | some t => [("nextAttempt", .str (iso t))]
         | none => []))

/-- `MetricsCollector.exportJSON`: the snapshot wrapped with an export
timestamp, as the JSON tree that `JSON.stringify` renders. -/
def MetricsCollector.exportJSON (mc : MetricsCollector)
    (currentState : CircuitState) (lastStateChange : ℚ)
    (nextAttempt : Option ℚ) (exportTime : ℚ) (iso : ℚ → String) : Json :=
  let metrics := mc.getMetrics currentState lastStateChange nextAttempt
  .obj [("timestamp", .str (iso exportTime)),
        ("circuitBreaker", metrics.toJson iso)]

instance {ε α : Type} [DecidableEq ε] [DecidableEq α] : DecidableEq (Except ε α) := fun a b =>
  match a, b with
  | .ok x, .ok y =>
      if h : x = y then .isTrue (congrArg Except.ok h)
      else .isFalse (fun hh => h (Except.ok.inj hh))
  | .error x, .error y =>
      if h : x = y then .isTrue (congrArg Except.error h)
      else .isFalse (fun hh => h (Except.error.inj hh))
  | .ok _, .error _ => .isFalse (fun hh => Except.noConfusion hh)
  | .error _, .ok _ => .isFalse (fun hh => Except.noConfusion hh)

/-- The errors `execute` can surface: `CircuitBreakerError` (with the projected
next-attempt time that the code embeds in the message), `TimeoutError`, the
operation's own error re-raised, and the defensive invalid-transition guard of
the `StateManager` propagating out. -/
inductive ExecError where
  | circuitBreakerOpen (nextAttempt : Option ℚ) (state : CircuitState)
  | timeoutError (timeout : ℚ)
  | operationError (msg : String)
  | invalidTransition (msg : String)
deriving DecidableEq, Repr, Inhabited

/-- `CircuitBreaker` from src/src/core/CircuitBreaker.ts. -/
structure CircuitBreaker where
  config : CircuitBreakerConfig
  stateManager : StateManager
  failureDetector : FailureDetector
  metricsCollector : MetricsCollector
  lastFailureTime : Option ℚ
deriving DecidableEq, Repr, Inhabited

/-- `CircuitBreaker.validateConfig` (src/src/core/CircuitBreaker.ts,
lines 215-238). -/
def CircuitBreaker.validateConfig (c : CircuitBreakerConfig) : Except String Unit :=
  if c.failureThreshold ≤ 0 then
    .error "failureThreshold must be greater than 0"
  else if c.failureRateThreshold < 0 ∨ c.failureRateThreshold > 1 then
    .error "failureRateThreshold must be between 0 and 1"
  else if c.timeout ≤ 0 then
    .error "timeout must be greater than 0"
  else if c.resetTimeout ≤ 0 then
    .error "resetTimeout must be greater than 0"
  else if c.minimumThroughput ≤ 0 then
    .error "minimumThroughput must be greater than 0"
  else
    .ok ()

/-- The `CircuitBreaker` constructor: merge with defaults, validate, then
build the components (whose window constructors also check their capacity). -/
def CircuitBreaker.make (p : PartialConfig) (now : ℚ) : Except String CircuitBreaker := do
  let config := mergeConfig p
  CircuitBreaker.validateConfig config
  let fd ← FailureDetector.make config
  let mc ← MetricsCollector.make (config.minimumThroughput * 2)
  .ok { config := config
        stateManager := StateManager.make now
        failureDetector := fd
        metricsCollector := mc
        lastFailureTime := none }

/-- `CircuitBreaker.getState`. -/
def CircuitBreaker.getState (b : CircuitBreaker) : CircuitState :=
  b.stateManager.getState

/-- `CircuitBreaker.shouldAttemptReset` (src/src/core/CircuitBreaker.ts,
lines 189-196). -/
def CircuitBreaker.shouldAttemptReset (b : CircuitBreaker) (now : ℚ) : Bool :=
  match b.lastFailureTime with
  | none => true
  | some t => decide (now - t ≥ b.config.resetTimeout)

/-- `CircuitBreaker.getNextAttemptTime` (src/src/core/CircuitBreaker.ts,
lines 202-208). -/
def CircuitBreaker.getNextAttemptTime (b : CircuitBreaker) : Option ℚ :=
  if b.stateManager.getState ≠ CircuitState.OPEN then none
  else
    match b.lastFailureTime with
    | none => none
    | some t => some (t + b.config.resetTimeout)

/-- `CircuitBreaker.getMetrics`. -/
def CircuitBreaker.getMetrics (b : CircuitBreaker) : CircuitBreakerMetrics :=
  b.metricsCollector.getMetrics b.stateManager.getState
    b.stateManager.getLastStateChange b.getNextAttemptTime

/-- `CircuitBreaker.reset`. -/
def CircuitBreaker.reset (b : CircuitBreaker) (now : ℚ) : CircuitBreaker :=
  { b with
    stateManager := b.stateManager.reset now
    failureDetector := b.failureDetector.reset
    metricsCollector := b.metricsCollector.reset
    lastFailureTime := none }

/-- What the `Promise.race` in `executeWithTimeout` resolves to. -/
inductive RaceResult where
  | opOk (v : ℚ)
  | opErr (msg : String)
  | timedOut
deriving DecidableEq, Repr, Inhabited

/-- The message of the `TimeoutError` thrown by `createTimeoutPromise`. -/
def timeoutMessage : String := "Operation timed out"

/-- The `Promise.race` of the operation (described by its duration and its
eventual result) against the timeout timer: the operation wins when it settles
no later than the timer fires; otherwise the timer's rejection wins. Returns
the winner and the elapsed time at which the race resolved. -/
def race (timeout : ℚ) (opDuration : ℚ) (opResult : Except String ℚ) :
    RaceResult × ℚ :=
  if opDuration ≤ timeout then
    (match opResult with
     | .ok v => .opOk v
     | .error m => .opErr m,
     opDuration)
  else (.timedOut, timeout)

/-- `CircuitBreaker.onSuccess` (src/src/core/CircuitBreaker.ts, lines 158-166):
record the success, then close the circuit if the probe was in flight. The
optional string is a propagating transition error (never actually produced,
since `HALF_OPEN → CLOSED` is always legal). -/
def CircuitBreaker.onSuccess (b : CircuitBreaker) (responseTime : ℚ)
    (now : ℚ) : CircuitBreaker × Option String :=
  let b1 := { b with
    metricsCollector := b.metricsCollector.recordSuccess responseTime now
    failureDetector := b.failureDetector.recordSuccess now none }
  if b1.stateManager.getState = CircuitState.HALF_OPEN then
    match b1.stateManager.transitionTo CircuitState.CLOSED now with
    | .ok sm => ({ b1 with stateManager := sm }, none)
    | .error e => (b1, some e)
  else (b1, none)

/-- `CircuitBreaker.onFailure` (src/src/core/CircuitBreaker.ts, lines 174-183):
record the failure, stamp `lastFailureTime`, and open the circuit when the
failure detector says so. -/
def CircuitBreaker.onFailure (b : CircuitBreaker) (errMsg : String)
    (responseTime : ℚ) (now : ℚ) : CircuitBreaker × Option String :=
  let b1 := { b with
    metricsCollector := b.metricsCollector.recordFailure responseTime now (some errMsg)
    failureDetector := b.failureDetector.recordFailure now errMsg
    lastFailureTime := some now }
  if b1.failureDetector.shouldOpenCircuit then
    match b1.stateManager.transitionTo CircuitState.OPEN now with
    | .ok sm => ({ b1 with stateManager := sm }, none)
    | .error e => (b1, some e)
  else (b1, none)

/-- The outcome of one `execute` call: the value returned or error raised, the
breaker afterwards, and how many times the wrapped operation was invoked. -/
structure ExecOutcome where
  result : Except ExecError ℚ
  breaker : CircuitBreaker
  invocations : ℕ
deriving DecidableEq, Repr, Inhabited

/-- The body of `execute` after the open-circuit gate: run the timeout race
and report the outcome (the `try`/`catch` around `executeWithTimeout`). -/
def CircuitBreaker.settleCall (b : CircuitBreaker) (now : ℚ) (opDuration : ℚ)
    (opResult : Except String ℚ) : ExecOutcome :=
  match race b.config.timeout opDuration opResult with
  | (.opOk v, elapsed) =>
      match b.onSuccess elapsed (now + elapsed) with
      | (b2, none) => { result := .ok v, breaker := b2, invocations := 1 }
      | (b2, some e) =>
          { result := .error (.invalidTransition e), breaker := b2, invocations := 1 }
  | (.opErr m, elapsed) =>
      match b.onFailure m elapsed (now + elapsed) with
      | (b2, none) => { result := .error (.operationError m), breaker := b2, invocations := 1 }
      | (b2, some e) =>
          { result := .error (.invalidTransition e), breaker := b2, invocations := 1 }
  | (.timedOut, elapsed) =>
      match b.onFailure timeoutMessage elapsed (now + elapsed) with
      | (b2, none) =>
          { result := .error (.timeoutError b.config.timeout), breaker := b2, invocations := 1 }
      | (b2, some e) =>
          { result := .error (.invalidTransition e), breaker := b2, invocations := 1 }

/-- `CircuitBreaker.execute` (src/src/core/CircuitBreaker.ts, lines 60-85):
the open-circuit gate, then the raced call. The call is described by the
wrapped operation's duration and eventual result; `now` is the clock at the
start of the call. -/
def CircuitBreaker.execute (b : CircuitBreaker) (now : ℚ) (opDuration : ℚ)
    (opResult : Except String ℚ) : ExecOutcome :=
  let currentState := b.stateManager.getState
  if currentState = CircuitState.OPEN then
    if b.shouldAttemptReset now then
      match b.stateManager.transitionTo CircuitState.HALF_OPEN now with
      | .ok sm => CircuitBreaker.settleCall { b with stateManager := sm } now opDuration opResult
      | .error e =>
          { result := .error (.invalidTransition e), breaker := b, invocations := 0 }
    else
      { result := .error (.circuitBreakerOpen b.getNextAttemptTime currentState)
        breaker := b, invocations := 0 }
  else
    CircuitBreaker.settleCall b now opDuration opResult

/-- One externally driven event in a breaker's life. -/
inductive BreakerEvent where
  | exec (now : ℚ) (opDuration : ℚ) (opResult : Except String ℚ)
  | reset (now : ℚ)
deriving DecidableEq, Repr, Inhabited

/-- Apply one event to a breaker. -/
def CircuitBreaker.applyEvent (b : CircuitBreaker) : BreakerEvent → CircuitBreaker
  | .exec now d r => (b.execute now d r).breaker
  | .reset now => b.reset now

/-- Run a sequence of events. -/
def runEvents (b : CircuitBreaker) (evts : List BreakerEvent) : CircuitBreaker :=
  evts.foldl CircuitBreaker.applyEvent b

/-- Construct a breaker and run a sequence of events over it. -/
def buildAndRun (p : PartialConfig) (now : ℚ) (evts : List BreakerEvent) :
    Option CircuitBreaker :=
  match CircuitBreaker.make p now with
  | .ok b0 => some (runEvents b0 evts)
  | .error _ => none

/-- A breaker state that some construction followed by some sequence of
`execute` and `reset` calls produces. -/
def Reachable (b : CircuitBreaker) : Prop :=
  ∃ p now evts, buildAndRun p now evts = some b

/-- The five constraints `validateConfig` enforces. -/
def ValidConfig (c : CircuitBreakerConfig) : Prop :=
  0 < c.failureThreshold ∧
  (0 ≤ c.failureRateThreshold ∧ c.failureRateThreshold ≤ 1) ∧
  0 < c.timeout ∧
  0 < c.resetTimeout ∧
  0 < c.minimumThroughput

instance (c : CircuitBreakerConfig) : Decidable (ValidConfig c) := by
  unfold ValidConfig; infer_instance

/-- The number of failure records a list holds (the `filter`/`length`
computation of `shouldOpenCircuit` and `getFailureRate`). -/
def countFailures (l : List FailureRecord) : ℕ :=
  (l.filter (fun r => r.isFailure)).length

/-! ### Concrete instances used to evaluate the theorems -/

/-- A small valid configuration: one failure with one sample opens the
circuit, probes are allowed 100ms after a failure. -/
def probeConfig : PartialConfig :=
  { failureThreshold := some 1, failureRateThreshold := some 1,
    timeout := some 1000, resetTimeout := some 100, minimumThroughput := some 1 }

/-- The breaker `probeConfig` produces after one failing call: it is `OPEN`
with `lastFailureTime = 0`. -/
def sampleOpenBreaker : CircuitBreaker :=
  (buildAndRun probeConfig 0 [.exec 0 0 (.error "boom")]).getD default

/-- A freshly constructed breaker over `probeConfig`. -/
def freshBreaker : CircuitBreaker :=
  (buildAndRun probeConfig 0 []).getD default

/-- A breaker over `probeConfig` caught between the probe admission and the
probe's settlement: `HALF_OPEN`, with the failure that opened it still in the
window. -/
def sampleHalfOpenBreaker : CircuitBreaker :=
  { config := mergeConfig probeConfig
    stateManager := { currentState := .HALF_OPEN, lastStateChange := 0 }
    failureDetector :=
      { slidingWindow :=
          { records := [{ timestamp := 0, error := some "boom", isFailure := true }]
            maxSize := 2 }
        config := mergeConfig probeConfig
        consecutiveFailures := 1 }
    metricsCollector :=
      { totalCalls := 1, successfulCalls := 0, failedCalls := 1
        slidingWindow :=
          { records := [{ timestamp := 0, isSuccess := false, responseTime := 0
                          error := some "boom" }]
            maxSize := 2 }
        responseTimes := [0] }
    lastFailureTime := some 0 }

/-- `failureCountThreshold = 2` with `minimumSampleSize = 4`: the minimum
sample guard is still unmet when the second failure arrives. -/
def guardConfig : PartialConfig :=
  { failureThreshold := some 2, failureRateThreshold := some 1,
    timeout := some 1000, resetTimeout := some 100, minimumThroughput := some 4 }

/-- One success then two failures under `guardConfig`. -/
def guardRun : CircuitBreaker :=
  (buildAndRun guardConfig 0
    [.exec 0 0 (.ok 1), .exec 1 0 (.error "e"), .exec 2 0 (.error "e")]).getD default

/-- `failureCountThreshold = 2` with `minimumSampleSize = 3`. -/
def stepConfig : PartialConfig :=
  { failureThreshold := some 2, failureRateThreshold := some 1,
    timeout := some 1000, resetTimeout := some 100, minimumThroughput := some 3 }

/-- One success then one failure under `stepConfig`: still `CLOSED`, one
failure short of the count threshold. -/
def stepRun : CircuitBreaker :=
  (buildAndRun stepConfig 0 [.exec 0 0 (.ok 1), .exec 1 0 (.error "e")]).getD default

/-- `minimumSampleSize = 2` and every threshold at its most sensitive. -/
def minConfig : PartialConfig :=
  { failureThreshold := some 1, failureRateThreshold := some 1,
    timeout := some 1000, resetTimeout := some 100, minimumThroughput := some 2 }

/-- A single failing call under `minConfig`: one recorded outcome. -/
def minRun : CircuitBreaker :=
  (buildAndRun minConfig 0 [.exec 0 0 (.error "e")]).getD default

/-- The state invariant of a breaker. It holds after construction, is
preserved by `execute` and `reset` (including across the intermediate
`OPEN → HALF_OPEN` probe admission inside `execute`), and therefore holds of
every breaker state an actual run can exhibit. -/
structure Inv (b : CircuitBreaker) : Prop where
  valid : ValidConfig b.config
  fdConfig : b.failureDetector.config = b.config
  sizeLeTotal :
    b.failureDetector.slidingWindow.records.length ≤ b.metricsCollector.totalCalls
  closedBelowMin :
    ((b.metricsCollector.totalCalls : ℚ) < b.config.minimumThroughput) →
      b.stateManager.currentState = CircuitState.CLOSED
  openJustified :
    (b.stateManager.currentState = CircuitState.OPEN ∨
        b.stateManager.currentState = CircuitState.HALF_OPEN) →
      (b.failureDetector.shouldOpenCircuit = true ∧ b.lastFailureTime.isSome = true)

/-! ### Basic lemmas about the sliding window -/

theorem SlidingWindow.add_maxSize {α : Type} (w : SlidingWindow α) (r : α) :
    (w.add r).maxSize = w.maxSize := by
  simp only [SlidingWindow.add]
  split <;> rfl

theorem SlidingWindow.add_records {α : Type} (w : SlidingWindow α) (r : α) :
    (w.add r).records =
      if ((w.records.length : ℚ) + 1 > w.maxSize) then (w.records ++ [r]).tail
      else w.records ++ [r] := by
  have hlen : (((w.records ++ [r]).length : ℕ) : ℚ) = (w.records.length : ℚ) + 1 := by
    push_cast [List.length_append, List.length_singleton]
    ring
  simp only [SlidingWindow.add, hlen]
  split <;> rfl

theorem SlidingWindow.length_add_le {α : Type} (w : SlidingWindow α) (r : α) :
    (w.add r).records.length ≤ w.records.length + 1 := by
  rw [SlidingWindow.add_records]
  split
  · simp [List.length_tail]
  · simp

theorem SlidingWindow.length_le_add {α : Type} (w : SlidingWindow α) (r : α) :
    w.records.length ≤ (w.add r).records.length := by
  rw [SlidingWindow.add_records]
  split
  · simp [List.length_tail]
  · simp

theorem countFailures_le_length (l : List FailureRecord) :
    countFailures l ≤ l.length := by
  unfold countFailures
  exact List.length_filter_le _ _

theorem countFailures_append (l₁ l₂ : List FailureRecord) :
    countFailures (l₁ ++ l₂) = countFailures l₁ + countFailures l₂ := by
  unfold countFailures
  simp [List.filter_append]

theorem countFailures_cons (r : FailureRecord) (l : List FailureRecord) :
    countFailures (r :: l) =
      (if r.isFailure then 1 else 0) + countFailures l := by
  unfold countFailures
  by_cases h : r.isFailure <;> simp [List.filter_cons, h, Nat.add_comm]

/-- `shouldOpenCircuit`, unfolded into the proposition it decides. -/
theorem shouldOpenCircuit_iff (d : FailureDetector) :
    d.shouldOpenCircuit = true ↔
      (d.config.minimumThroughput ≤ (d.slidingWindow.records.length : ℚ) ∧
        (d.config.failureThreshold ≤ (countFailures d.slidingWindow.records : ℚ) ∨
          d.config.failureRateThreshold ≤
            (countFailures d.slidingWindow.records : ℚ) /
              (d.slidingWindow.records.length : ℚ))) := by
  unfold FailureDetector.shouldOpenCircuit SlidingWindow.getAll countFailures
  dsimp only
  split
  · next h => simp [not_le.mpr h]
  · next h => simp [not_lt.mp h]

/-- Recording one more failure never turns `shouldOpenCircuit` off: the window
size does not shrink, the failure count does not drop, and the failure rate
does not decrease, so whichever threshold was met stays met. -/
theorem shouldOpen_recordFailure (d : FailureDetector)
    (hm : 0 < d.config.minimumThroughput)
    (h : d.shouldOpenCircuit = true) (now : ℚ) (e : String) :
    (d.recordFailure now e).shouldOpenCircuit = true := by
  rw [shouldOpenCircuit_iff] at h
  rw [shouldOpenCircuit_iff]
  obtain ⟨hguard, hth⟩ := h
  have hcfg : (d.recordFailure now e).config = d.config := rfl
  have hwin : (d.recordFailure now e).slidingWindow =
      d.slidingWindow.add { timestamp := now, isFailure := true, error := some e } := rfl
  rw [hcfg, hwin, SlidingWindow.add_records]
  set rs := d.slidingWindow.records with hrs
  set rec : FailureRecord := { timestamp := now, isFailure := true, error := some e }
    with hrec
  have hn : 0 < rs.length := by
    by_contra hz
    push_neg at hz
    have h0 : rs.length = 0 := Nat.le_zero.mp hz
    rw [h0] at hguard
    norm_num at hguard
    linarith
  have hfle : (countFailures rs : ℚ) ≤ (rs.length : ℚ) :=
    Nat.cast_le.mpr (countFailures_le_length rs)
  have hnq : (0 : ℚ) < (rs.length : ℚ) := by exact_mod_cast hn
  split
  · -- over capacity: the oldest record is shifted out, the failure goes in
    obtain ⟨hd0, t, ht⟩ := List.exists_cons_of_ne_nil (List.length_pos.mp hn)
    rw [ht]
    have htail : ((hd0 :: t) ++ [rec]).tail = t ++ [rec] := rfl
    rw [htail]
    have hlen' : (t ++ [rec]).length = rs.length := by
      rw [ht]; simp
    have hcount : countFailures rs ≤ countFailures (t ++ [rec]) := by
      rw [ht, countFailures_cons, countFailures_append]
      have : countFailures [rec] = 1 := by rw [hrec]; rfl
      rw [this]
      split <;> omega
    have hcountq : (countFailures rs : ℚ) ≤ (countFailures (t ++ [rec]) : ℚ) :=
      Nat.cast_le.mpr hcount
    refine ⟨by rw [hlen']; exact hguard, ?_⟩
    rcases hth with hth | hth
    · exact Or.inl (le_trans hth hcountq)
    · refine Or.inr (le_trans hth ?_)
      rw [hlen']
      exact (div_le_div_iff_of_pos_right hnq).mpr hcountq
  · -- under capacity: the failure record is appended
    have hlen' : (rs ++ [rec]).length = rs.length + 1 := by simp
    have hcount : countFailures (rs ++ [rec]) = countFailures rs + 1 := by
      rw [countFailures_append]
      have : countFailures [rec] = 1 := by rw [hrec]; rfl
      rw [this]
    refine ⟨?_, ?_⟩
    · rw [hlen']
      push_cast
      linarith
    · rcases hth with hth | hth
      · refine Or.inl (le_trans hth ?_)
        rw [hcount]
        push_cast
        linarith
      · refine Or.inr (le_trans hth ?_)
        rw [hcount, hlen']
        push_cast
        rw [div_le_div_iff₀ hnq (by linarith)]
        nlinarith [hfle]

/-! ### State-machine and construction lemmas -/

/-- Opening the circuit is legal from every state: `CLOSED → OPEN` and
`HALF_OPEN → OPEN` are edges, `OPEN → OPEN` is a same-state no-op. -/
theorem isValidTransition_to_open (s : CircuitState) :
    StateManager.isValidTransition s CircuitState.OPEN = true := by
  cases s <;> rfl

theorem isValidTransition_half_open_closed :
    StateManager.isValidTransition CircuitState.HALF_OPEN CircuitState.CLOSED = true :=
  rfl

theorem isValidTransition_open_half_open :
    StateManager.isValidTransition CircuitState.OPEN CircuitState.HALF_OPEN = true :=
  rfl

/-- `validateConfig` accepts exactly the configurations satisfying the five
documented constraints. -/
theorem validateConfig_ok_iff (c : CircuitBreakerConfig) :
    CircuitBreaker.validateConfig c = .ok () ↔ ValidConfig c := by
  unfold CircuitBreaker.validateConfig ValidConfig
  split_ifs with h1 h2 h3 h4 h5
  · simp only [reduceCtorEq, false_iff]
    rintro ⟨hf, -⟩
    linarith
  · simp only [reduceCtorEq, false_iff]
    rintro ⟨-, ⟨hr0, hr1⟩, -⟩
    rcases h2 with h2 | h2 <;> linarith
  · simp only [reduceCtorEq, false_iff]
    rintro ⟨-, -, ht, -⟩
    linarith
  · simp only [reduceCtorEq, false_iff]
    rintro ⟨-, -, -, hrt, -⟩
    linarith
  · simp only [reduceCtorEq, false_iff]
    rintro ⟨-, -, -, -, hmt⟩
    linarith
  · simp only [true_iff]
    push_neg at h1 h2 h3 h4 h5
    exact ⟨h1, ⟨h2.1, h2.2⟩, h3, h4, h5⟩

/-- `onSuccess` in one equation: record the success in both collaborators and
close the circuit when the state was `HALF_OPEN` (that transition is always
legal, so the defensive guard never fires). -/
theorem CircuitBreaker.onSuccess_eq (b : CircuitBreaker) (rt now : ℚ) :
    b.onSuccess rt now =
      ({ b with
          metricsCollector := b.metricsCollector.recordSuccess rt now
          failureDetector := b.failureDetector.recordSuccess now none
          stateManager :=
            if b.stateManager.currentState = CircuitState.HALF_OPEN then
              { currentState := CircuitState.CLOSED, lastStateChange := now }
            else b.stateManager }, none) := by
  unfold CircuitBreaker.onSuccess
  by_cases h : b.stateManager.currentState = CircuitState.HALF_OPEN
  · simp only [StateManager.getState, h, if_pos]
    rw [StateManager.transitionTo, h]
    simp [isValidTransition_half_open_closed]
  · simp [StateManager.getState, h]

/-- `onFailure` in one equation: record the failure in both collaborators,
stamp `lastFailureTime`, and open the circuit exactly when the detector (with
the new record) says so (opening is legal from every state, so the defensive
guard never fires). -/
theorem CircuitBreaker.onFailure_eq (b : CircuitBreaker) (e : String) (rt now : ℚ) :
    b.onFailure e rt now =
      ({ b with
          metricsCollector := b.metricsCollector.recordFailure rt now (some e)
          failureDetector := b.failureDetector.recordFailure now e
          lastFailureTime := some now
          stateManager :=
            if (b.failureDetector.recordFailure now e).shouldOpenCircuit then
              { currentState := CircuitState.OPEN, lastStateChange := now }
            else b.stateManager }, none) := by
  unfold CircuitBreaker.onFailure
  by_cases h : (b.failureDetector.recordFailure now e).shouldOpenCircuit
  · simp only [h, if_pos]
    rw [StateManager.transitionTo]
    simp [isValidTransition_to_open]
  · simp [h]

/-! ### The timeout race and `settleCall` -/

theorem race_ok (timeout d v : ℚ) (hd : d ≤ timeout) :
    race timeout d (.ok v) = (.opOk v, d) := by
  unfold race
  rw [if_pos hd]

theorem race_err (timeout d : ℚ) (m : String) (hd : d ≤ timeout) :
    race timeout d (.error m) = (.opErr m, d) := by
  unfold race
  rw [if_pos hd]

theorem race_timeout (timeout d : ℚ) (r : Except String ℚ) (hd : ¬ d ≤ timeout) :
    race timeout d r = (.timedOut, timeout) := by
  unfold race
  rw [if_neg hd]

theorem settleCall_invocations (b : CircuitBreaker) (now d : ℚ)
    (r : Except String ℚ) : (b.settleCall now d r).invocations = 1 := by
  unfold CircuitBreaker.settleCall
  split <;> split <;> rfl

theorem settleCall_of_ok (b : CircuitBreaker) (now d v : ℚ)
    (hd : d ≤ b.config.timeout) :
    b.settleCall now d (.ok v) =
      { result := .ok v
        breaker := (b.onSuccess d (now + d)).1
        invocations := 1 } := by
  unfold CircuitBreaker.settleCall
  simp only [race_ok b.config.timeout d v hd, CircuitBreaker.onSuccess_eq]

theorem settleCall_of_err (b : CircuitBreaker) (now d : ℚ) (m : String)
    (hd : d ≤ b.config.timeout) :
    b.settleCall now d (.error m) =
      { result := .error (.operationError m)
        breaker := (b.onFailure m d (now + d)).1
        invocations := 1 } := by
  unfold CircuitBreaker.settleCall
  simp only [race_err b.config.timeout d m hd, CircuitBreaker.onFailure_eq]

theorem settleCall_of_timeout (b : CircuitBreaker) (now d : ℚ)
    (r : Except String ℚ) (hd : ¬ d ≤ b.config.timeout) :
    b.settleCall now d r =
      { result := .error (.timeoutError b.config.timeout)
        breaker := (b.onFailure timeoutMessage b.config.timeout (now + b.config.timeout)).1
        invocations := 1 } := by
  unfold CircuitBreaker.settleCall
  simp only [race_timeout b.config.timeout d r hd, CircuitBreaker.onFailure_eq]

/-! ### The three branches of `execute` -/

theorem execute_of_not_open (b : CircuitBreaker) (now d : ℚ)
    (r : Except String ℚ) (h : b.stateManager.currentState ≠ CircuitState.OPEN) :
    b.execute now d r = b.settleCall now d r := by
  unfold CircuitBreaker.execute
  simp [StateManager.getState, h]

theorem execute_of_open_denied (b : CircuitBreaker) (now d : ℚ)
    (r : Except String ℚ) (ho : b.stateManager.currentState = CircuitState.OPEN)
    (hs : b.shouldAttemptReset now = false) :
    b.execute now d r =
      { result := .error (.circuitBreakerOpen b.getNextAttemptTime CircuitState.OPEN)
        breaker := b, invocations := 0 } := by
  unfold CircuitBreaker.execute
  simp [StateManager.getState, ho, hs]

theorem execute_of_open_admitted (b : CircuitBreaker) (now d : ℚ)
    (r : Except String ℚ) (ho : b.stateManager.currentState = CircuitState.OPEN)
    (hs : b.shouldAttemptReset now = true) :
    b.execute now d r =
      CircuitBreaker.settleCall
        { b with stateManager :=
            { currentState := CircuitState.HALF_OPEN, lastStateChange := now } }
        now d r := by
  unfold CircuitBreaker.execute
  rw [StateManager.getState, ho]
  rw [StateManager.transitionTo, ho]
  simp [hs, isValidTransition_open_half_open]

/-! ### Preservation of the invariant -/

theorem inv_onSuccess (b : CircuitBreaker) (h : Inv b)
    (hso : b.stateManager.currentState ≠ CircuitState.OPEN) (rt now : ℚ) :
    Inv (b.onSuccess rt now).1 := by
  rw [CircuitBreaker.onSuccess_eq]
  refine ⟨h.valid, h.fdConfig, ?_, ?_, ?_⟩
  · calc (b.failureDetector.slidingWindow.add _).records.length
        ≤ b.failureDetector.slidingWindow.records.length + 1 :=
          SlidingWindow.length_add_le _ _
      _ ≤ b.metricsCollector.totalCalls + 1 := by
          exact Nat.add_le_add_right h.sizeLeTotal 1
  · intro hlt
    have htc : (b.metricsCollector.recordSuccess rt now).totalCalls
        = b.metricsCollector.totalCalls + 1 := rfl
    rw [htc] at hlt
    have hlt' : ((b.metricsCollector.totalCalls : ℚ)) < b.config.minimumThroughput := by
      push_cast at hlt
      linarith
    have hC := h.closedBelowMin hlt'
    simp only [hC]
    split <;> simp_all
  · intro hmem
    by_cases hH : b.stateManager.currentState = CircuitState.HALF_OPEN
    · simp only [hH, if_pos] at hmem
      rcases hmem with hmem | hmem <;> exact absurd hmem (by simp)
    · simp only [if_neg hH] at hmem
      rcases hmem with hmem | hmem
      · exact absurd hmem hso
      · exact absurd hmem hH

theorem inv_onFailure (b : CircuitBreaker) (h : Inv b)
    (hso : b.stateManager.currentState ≠ CircuitState.OPEN) (e : String) (rt now : ℚ) :
    Inv (b.onFailure e rt now).1 := by
  rw [CircuitBreaker.onFailure_eq]
  have hm : 0 < (b.failureDetector.config).minimumThroughput := by
    rw [h.fdConfig]
    exact h.valid.2.2.2.2
  refine ⟨h.valid, h.fdConfig, ?_, ?_, ?_⟩
  · calc (b.failureDetector.slidingWindow.add _).records.length
        ≤ b.failureDetector.slidingWindow.records.length + 1 :=
          SlidingWindow.length_add_le _ _
      _ ≤ b.metricsCollector.totalCalls + 1 := Nat.add_le_add_right h.sizeLeTotal 1
  · intro hlt
    have htc : (b.metricsCollector.recordFailure rt now (some e)).totalCalls
        = b.metricsCollector.totalCalls + 1 := rfl
    rw [htc] at hlt
    have hlt' : ((b.metricsCollector.totalCalls : ℚ)) < b.config.minimumThroughput := by
      push_cast at hlt
      linarith
    have hopen : (b.failureDetector.recordFailure now e).shouldOpenCircuit ≠ true := by
      intro hop
      have hsz := (shouldOpenCircuit_iff _).mp hop
      have hlen : (b.failureDetector.recordFailure now e).slidingWindow.records.length
          ≤ b.failureDetector.slidingWindow.records.length + 1 :=
        SlidingWindow.length_add_le _ _
      have hfcfg : (b.failureDetector.recordFailure now e).config = b.failureDetector.config := rfl
      rw [hfcfg, h.fdConfig] at hsz
      have : b.config.minimumThroughput
          ≤ ((b.failureDetector.slidingWindow.records.length + 1 : ℕ) : ℚ) :=
        le_trans hsz.1 (Nat.cast_le.mpr hlen)
      have htot : ((b.failureDetector.slidingWindow.records.length + 1 : ℕ) : ℚ)
          ≤ ((b.metricsCollector.totalCalls + 1 : ℕ) : ℚ) :=
        Nat.cast_le.mpr (Nat.add_le_add_right h.sizeLeTotal 1)
      have : b.config.minimumThroughput ≤ ((b.metricsCollector.totalCalls + 1 : ℕ) : ℚ) :=
        le_trans this htot
      push_cast at this
      push_cast at hlt
      linarith
    simp only [Bool.not_eq_true] at hopen
    simp only [hopen, Bool.false_eq_true, if_neg, if_false]
    exact h.closedBelowMin hlt'
  · intro hmem
    by_cases hop : (b.failureDetector.recordFailure now e).shouldOpenCircuit = true
    · exact ⟨hop, by simp⟩
    · simp only [Bool.not_eq_true] at hop
      simp only [hop, Bool.false_eq_true, if_false] at hmem
      have hH : b.stateManager.currentState = CircuitState.HALF_OPEN := by
        rcases hmem with hmem | hmem
        · exact absurd hmem hso
        · exact hmem
      have hjust := h.openJustified (Or.inr hH)
      have := shouldOpen_recordFailure b.failureDetector hm hjust.1 now e
      rw [this] at hop
      exact absurd hop (by simp)

theorem inv_settleCall (b : CircuitBreaker) (h : Inv b)
    (hso : b.stateManager.currentState ≠ CircuitState.OPEN) (now d : ℚ)
    (r : Except String ℚ) : Inv (b.settleCall now d r).breaker := by
  by_cases hd : d ≤ b.config.timeout
  · cases r with
    | ok v =>
        rw [settleCall_of_ok b now d v hd]
        exact inv_onSuccess b h hso d (now + d)
    | error m =>
        rw [settleCall_of_err b now d m hd]
        exact inv_onFailure b h hso m d (now + d)
  · rw [settleCall_of_timeout b now d r hd]
    exact inv_onFailure b h hso timeoutMessage b.config.timeout (now + b.config.timeout)

/-- The intermediate state of an admitted probe (`OPEN → HALF_OPEN`, before the
operation settles) also satisfies the invariant. -/
theorem inv_probeAdmission (b : CircuitBreaker) (h : Inv b)
    (ho : b.stateManager.currentState = CircuitState.OPEN) (now : ℚ) :
    Inv { b with stateManager :=
        { currentState := CircuitState.HALF_OPEN, lastStateChange := now } } := by
  refine ⟨h.valid, h.fdConfig, h.sizeLeTotal, ?_, ?_⟩
  · intro hlt
    have := h.closedBelowMin hlt
    rw [ho] at this
    exact absurd this (by simp)
  · intro _
    exact h.openJustified (Or.inl ho)

theorem inv_execute (b : CircuitBreaker) (h : Inv b) (now d : ℚ)
    (r : Except String ℚ) : Inv (b.execute now d r).breaker := by
  by_cases ho : b.stateManager.currentState = CircuitState.OPEN
  · by_cases hs : b.shouldAttemptReset now = true
    · rw [execute_of_open_admitted b now d r ho hs]
      exact inv_settleCall _ (inv_probeAdmission b h ho now) (by simp) now d r
    · rw [execute_of_open_denied b now d r ho (by simpa using hs)]
      exact h
  · rw [execute_of_not_open b now d r ho]
    exact inv_settleCall b h ho now d r

theorem inv_reset (b : CircuitBreaker) (h : Inv b) (now : ℚ) : Inv (b.reset now) := by
  refine ⟨h.valid, h.fdConfig, by simp [CircuitBreaker.reset, StateManager.reset,
    FailureDetector.reset, MetricsCollector.reset, SlidingWindow.clear], ?_, ?_⟩
  · intro _
    rfl
  · intro hmem
    rcases hmem with hmem | hmem <;> exact absurd hmem (by simp [CircuitBreaker.reset,
      StateManager.reset])

theorem inv_applyEvent (b : CircuitBreaker) (e : BreakerEvent) (h : Inv b) :
    Inv (b.applyEvent e) := by
  cases e with
  | exec now d r => exact inv_execute b h now d r
  | reset now => exact inv_reset b h now

/-! ### Construction and reachability -/

theorem SlidingWindow.make_pos (α : Type) (cap : ℚ) (hc : ¬ cap ≤ 0) :
    SlidingWindow.make α cap = .ok { records := [], maxSize := cap } := by
  unfold SlidingWindow.make
  rw [if_neg hc]

theorem failureDetector_make_ok (c : CircuitBreakerConfig)
    (hm : 0 < c.minimumThroughput) :
    FailureDetector.make c =
      .ok { slidingWindow := { records := [], maxSize := c.minimumThroughput * 2 }
            config := c, consecutiveFailures := 0 } := by
  unfold FailureDetector.make
  rw [SlidingWindow.make_pos FailureRecord _ (by linarith)]
  rfl

theorem metricsCollector_make_ok (cap : ℚ) (hc : ¬ cap ≤ 0) :
    MetricsCollector.make cap =
      .ok { totalCalls := 0, successfulCalls := 0, failedCalls := 0
            slidingWindow := { records := [], maxSize := cap }
            responseTimes := [] } := by
  unfold MetricsCollector.make
  rw [SlidingWindow.make_pos CallRecord cap hc]
  rfl

/-- What a successful construction produces, and that its configuration is
valid. -/
theorem make_ok_elim (p : PartialConfig) (now : ℚ) (b : CircuitBreaker)
    (h : CircuitBreaker.make p now = .ok b) :
    ValidConfig (mergeConfig p) ∧
    b = { config := mergeConfig p
          stateManager := { currentState := CircuitState.CLOSED, lastStateChange := now }
          failureDetector :=
            { slidingWindow :=
                { records := [], maxSize := (mergeConfig p).minimumThroughput * 2 }
              config := mergeConfig p, consecutiveFailures := 0 }
          metricsCollector :=
            { totalCalls := 0, successfulCalls := 0, failedCalls := 0
              slidingWindow :=
                { records := [], maxSize := (mergeConfig p).minimumThroughput * 2 }
              responseTimes := [] }
          lastFailureTime := none } := by
  unfold CircuitBreaker.make at h
  dsimp only at h
  cases hv : CircuitBreaker.validateConfig (mergeConfig p) with
  | error e =>
      rw [hv] at h
      exact Except.noConfusion h
  | ok u =>
      cases u
      have hval : ValidConfig (mergeConfig p) := (validateConfig_ok_iff _).mp hv
      have hm : 0 < (mergeConfig p).minimumThroughput := hval.2.2.2.2
      rw [hv, failureDetector_make_ok _ hm,
        metricsCollector_make_ok _ (by linarith)] at h
      exact ⟨hval, (Except.ok.inj h).symm⟩

theorem inv_make (p : PartialConfig) (now : ℚ) (b : CircuitBreaker)
    (h : CircuitBreaker.make p now = .ok b) : Inv b := by
  obtain ⟨hval, rfl⟩ := make_ok_elim p now b h
  refine ⟨hval, rfl, le_refl 0, fun _ => rfl, ?_⟩
  intro hmem
  rcases hmem with hmem | hmem <;> exact absurd hmem (by simp)

theorem inv_runEvents (b : CircuitBreaker) (evts : List BreakerEvent)
    (h : Inv b) : Inv (runEvents b evts) := by
  induction evts generalizing b with
  | nil => exact h
  | cons e es ih =>
      rw [runEvents, List.foldl_cons]
      exact ih _ (inv_applyEvent b e h)

theorem inv_reachable (b : CircuitBreaker) (h : Reachable b) : Inv b := by
  obtain ⟨p, now, evts, hb⟩ := h
  unfold buildAndRun at hb
  cases hmk : CircuitBreaker.make p now with
  | error e => rw [hmk] at hb; simp at hb
  | ok b0 =>
      rw [hmk] at hb
      have := Option.some.inj hb
      rw [← this]
      exact inv_runEvents b0 evts (inv_make p now b0 hmk)

/-! ### The configuration never changes after construction -/

theorem config_onSuccess (b : CircuitBreaker) (rt now : ℚ) :
    (b.onSuccess rt now).1.config = b.config := by
  rw [CircuitBreaker.onSuccess_eq]

theorem config_onFailure (b : CircuitBreaker) (e : String) (rt now : ℚ) :
    (b.onFailure e rt now).1.config = b.config := by
  rw [CircuitBreaker.onFailure_eq]

theorem config_settleCall (b : CircuitBreaker) (now d : ℚ)
    (r : Except String ℚ) : (b.settleCall now d r).breaker.config = b.config := by
  by_cases hd : d ≤ b.config.timeout
  · cases r with
    | ok v => rw [settleCall_of_ok b now d v hd]; exact config_onSuccess b d (now + d)
    | error m => rw [settleCall_of_err b now d m hd]; exact config_onFailure b m d (now + d)
  · rw [settleCall_of_timeout b now d r hd]
    exact config_onFailure b timeoutMessage b.config.timeout (now + b.config.timeout)

theorem config_execute (b : CircuitBreaker) (now d : ℚ)
    (r : Except String ℚ) : (b.execute now d r).breaker.config = b.config := by
  by_cases ho : b.stateManager.currentState = CircuitState.OPEN
  · by_cases hs : b.shouldAttemptReset now = true
    · rw [execute_of_open_admitted b now d r ho hs]
      exact config_settleCall _ now d r
    · rw [execute_of_open_denied b now d r ho (by simpa using hs)]
  · rw [execute_of_not_open b now d r ho]
    exact config_settleCall b now d r

theorem config_applyEvent (b : CircuitBreaker) (e : BreakerEvent) :
    (b.applyEvent e).config = b.config := by
  cases e with
  | exec now d r => exact config_execute b now d r
  | reset now => rfl

theorem config_runEvents (b : CircuitBreaker) (evts : List BreakerEvent) :
    (runEvents b evts).config = b.config := by
  induction evts generalizing b with
  | nil => rfl
  | cons e es ih =>
      rw [runEvents, List.foldl_cons]
      rw [show (es.foldl CircuitBreaker.applyEvent (b.applyEvent e)) =
        runEvents (b.applyEvent e) es from rfl]
      rw [ih (b.applyEvent e), config_applyEvent b e]

/-! ### Claim theorems -/

/-- C2: `shouldOpenCircuit` returns false whenever the window holds fewer than
`minimumThroughput` records; otherwise it returns true exactly when the
failure count reaches `failureThreshold` or the failure rate (failures divided
by window size) reaches `failureRateThreshold`. Stated for every configuration
and every window content. -/
theorem shouldOpenCircuit_characterization (d : FailureDetector) :
    d.shouldOpenCircuit = true ↔
      (d.config.minimumThroughput ≤ (d.slidingWindow.size : ℚ) ∧
        (d.config.failureThreshold ≤ (countFailures d.slidingWindow.records : ℚ) ∨
          d.config.failureRateThreshold ≤
            (countFailures d.slidingWindow.records : ℚ) / (d.slidingWindow.size : ℚ))) := by
  rw [shouldOpenCircuit_iff]
  rfl

/-- C7: `transitionTo` fails exactly when the target differs from the current
state and the pair is not one of the four legal edges
(`CLOSED→OPEN`, `OPEN→HALF_OPEN`, `HALF_OPEN→CLOSED`, `HALF_OPEN→OPEN`);
every accepted transition updates the state value and the transition
timestamp together. -/
theorem transitionTo_characterization (sm : StateManager) (tgt : CircuitState)
    (now : ℚ) :
    ((∃ e, sm.transitionTo tgt now = .error e) ↔
      (tgt ≠ sm.currentState ∧
        ¬((sm.currentState = CircuitState.CLOSED ∧ tgt = CircuitState.OPEN) ∨
          (sm.currentState = CircuitState.OPEN ∧ tgt = CircuitState.HALF_OPEN) ∨
          (sm.currentState = CircuitState.HALF_OPEN ∧ tgt = CircuitState.CLOSED) ∨
          (sm.currentState = CircuitState.HALF_OPEN ∧ tgt = CircuitState.OPEN)))) ∧
    (∀ sm', sm.transitionTo tgt now = .ok sm' →
      sm'.currentState = tgt ∧ sm'.lastStateChange = now) := by
  obtain ⟨s, ts⟩ := sm
  constructor
  · cases s <;> cases tgt <;>
      simp [StateManager.transitionTo, StateManager.isValidTransition]
  · intro sm' h
    cases s <;> cases tgt <;>
      simp only [StateManager.transitionTo, StateManager.isValidTransition] at h <;>
      first
        | exact Except.noConfusion h
        | exact ⟨congrArg StateManager.currentState (Except.ok.inj h).symm,
            congrArg StateManager.lastStateChange (Except.ok.inj h).symm⟩

/-- C8: constructing a breaker succeeds exactly when the default-merged
configuration satisfies all five constraints (`failureThreshold > 0`,
`failureRateThreshold ∈ [0,1]`, `timeout > 0`, `resetTimeout > 0`,
`minimumThroughput > 0`); construction is the only place configuration errors
can arise. -/
theorem make_ok_iff_validConfig (p : PartialConfig) (now : ℚ) :
    (∃ b, CircuitBreaker.make p now = .ok b) ↔ ValidConfig (mergeConfig p) := by
  constructor
  · rintro ⟨b, hb⟩
    exact (make_ok_elim p now b hb).1
  · intro hval
    refine ⟨{ config := mergeConfig p
              stateManager := StateManager.make now
              failureDetector :=
                { slidingWindow :=
                    { records := [], maxSize := (mergeConfig p).minimumThroughput * 2 }
                  config := mergeConfig p, consecutiveFailures := 0 }
              metricsCollector :=
                { totalCalls := 0, successfulCalls := 0, failedCalls := 0
                  slidingWindow :=
                    { records := [], maxSize := (mergeConfig p).minimumThroughput * 2 }
                  responseTimes := [] }
              lastFailureTime := none }, ?_⟩
    unfold CircuitBreaker.make
    dsimp only
    rw [(validateConfig_ok_iff _).mpr hval,
      failureDetector_make_ok _ hval.2.2.2.2,
      metricsCollector_make_ok _ (by have := hval.2.2.2.2; intro hc; linarith)]
    rfl

/-- C9: the serialized metrics export, parsed back, carries the very same
`totalCalls`, success count, failure count and circuit state as a `getMetrics`
snapshot taken from the same collector state (stringifying the `Json` tree and
re-parsing it is the identity on these fields). -/
theorem exportJSON_roundtrip (mc : MetricsCollector) (s : CircuitState)
    (lsc : ℚ) (na : Option ℚ) (et : ℚ) (iso : ℚ → String) :
    (((mc.exportJSON s lsc na et iso).lookup "circuitBreaker").bind
        (fun cb => cb.lookup "totalCalls"))
      = some (.num (mc.getMetrics s lsc na).totalCalls) ∧
    (((mc.exportJSON s lsc na et iso).lookup "circuitBreaker").bind
        (fun cb => cb.lookup "successfulCalls"))
      = some (.num (mc.getMetrics s lsc na).successfulCalls) ∧
    (((mc.exportJSON s lsc na et iso).lookup "circuitBreaker").bind
        (fun cb => cb.lookup "failedCalls"))
      = some (.num (mc.getMetrics s lsc na).failedCalls) ∧
    (((mc.exportJSON s lsc na et iso).lookup "circuitBreaker").bind
        (fun cb => cb.lookup "state"))
      = some (.str (mc.getMetrics s lsc na).state.toSerialized) ∧
    CircuitState.ofSerialized (mc.getMetrics s lsc na).state.toSerialized
      = some (mc.getMetrics s lsc na).state ∧
    (mc.getMetrics s lsc na).totalCalls = mc.totalCalls ∧
    (mc.getMetrics s lsc na).successfulCalls = mc.successfulCalls ∧
    (mc.getMetrics s lsc na).failedCalls = mc.failedCalls ∧
    (mc.getMetrics s lsc na).state = s := by
  refine ⟨rfl, rfl, rfl, rfl, ?_, rfl, rfl, rfl, rfl⟩
  cases s <;> rfl

/-- C1: with the circuit `OPEN` and a recorded `lastFailureTime = t`, a call
before `t + resetTimeout` fails with `CircuitBreakerError` carrying the
projected retry time and never invokes the operation (the breaker is left
untouched); a call at or after that instant first moves the state machine to
`HALF_OPEN` and then runs the raced call, invoking the operation exactly
once. -/
theorem execute_open_circuit_gate (b : CircuitBreaker) (t now d : ℚ)
    (r : Except String ℚ)
    (hOpen : b.stateManager.currentState = CircuitState.OPEN)
    (hlf : b.lastFailureTime = some t) :
    (now - t < b.config.resetTimeout →
      b.execute now d r =
        { result := .error (.circuitBreakerOpen (some (t + b.config.resetTimeout))
            CircuitState.OPEN)
          breaker := b, invocations := 0 }) ∧
    (b.config.resetTimeout ≤ now - t →
      (b.execute now d r =
        CircuitBreaker.settleCall
          { b with stateManager :=
              { currentState := CircuitState.HALF_OPEN, lastStateChange := now } }
          now d r ∧
      (b.execute now d r).invocations = 1)) := by
  constructor
  · intro hlt
    have hs : b.shouldAttemptReset now = false := by
      unfold CircuitBreaker.shouldAttemptReset
      rw [hlf]
      simp only [ge_iff_le, decide_eq_false_iff_not, not_le]
      linarith
    have hna : b.getNextAttemptTime = some (t + b.config.resetTimeout) := by
      unfold CircuitBreaker.getNextAttemptTime
      simp [StateManager.getState, hOpen, hlf]
    rw [execute_of_open_denied b now d r hOpen hs, hna]
  · intro hge
    have hs : b.shouldAttemptReset now = true := by
      unfold CircuitBreaker.shouldAttemptReset
      rw [hlf]
      simp only [ge_iff_le, decide_eq_true_eq]
      exact hge
    refine ⟨execute_of_open_admitted b now d r hOpen hs, ?_⟩
    rw [execute_of_open_admitted b now d r hOpen hs]
    exact settleCall_invocations _ now d r

/-- C3: starting from a freshly constructed breaker, no sequence of calls can
leave the circuit `OPEN` while fewer than `minimumThroughput` call outcomes
have been recorded — even a sequence of nothing but failures. (`totalCalls`
counts exactly the recorded outcomes: denied calls record nothing.) -/
theorem no_open_before_minimum_samples (p : PartialConfig) (t0 : ℚ)
    (evts : List BreakerEvent) (b : CircuitBreaker)
    (hb : buildAndRun p t0 evts = some b)
    (hlt : ((b.metricsCollector.totalCalls : ℚ)) < (mergeConfig p).minimumThroughput) :
    b.stateManager.currentState ≠ CircuitState.OPEN := by
  have hinv := inv_reachable b ⟨p, t0, evts, hb⟩
  have hcfg : b.config = mergeConfig p := by
    unfold buildAndRun at hb
    cases hmk : CircuitBreaker.make p t0 with
    | error e => rw [hmk] at hb; simp at hb
    | ok b0 =>
        rw [hmk] at hb
        rw [← Option.some.inj hb, config_runEvents, ((make_ok_elim p t0 b0 hmk).2 ▸ rfl :
          b0.config = mergeConfig p)]
  rw [← hcfg] at hlt
  rw [hinv.closedBelowMin hlt]
  simp

/-- C4: a breaker in `HALF_OPEN` (the invariant holds of every state a real
run exhibits, including the in-flight probe): a probe that settles
successfully within the timeout closes the circuit; a probe that fails — by
its own error or by the timeout — re-opens it and stamps `lastFailureTime`
with the completion time. -/
theorem halfopen_probe_outcome (b : CircuitBreaker) (hinv : Inv b)
    (hH : b.stateManager.currentState = CircuitState.HALF_OPEN)
    (now d v : ℚ) (m : String) :
    (d ≤ b.config.timeout →
      ((b.execute now d (.ok v)).breaker.stateManager.currentState
          = CircuitState.CLOSED ∧
       (b.execute now d (.error m)).breaker.stateManager.currentState
          = CircuitState.OPEN ∧
       (b.execute now d (.error m)).breaker.lastFailureTime = some (now + d))) ∧
    (¬ d ≤ b.config.timeout →
      ((b.execute now d (.ok v)).breaker.stateManager.currentState
          = CircuitState.OPEN ∧
       (b.execute now d (.ok v)).breaker.lastFailureTime
          = some (now + b.config.timeout))) := by
  have hso : b.stateManager.currentState ≠ CircuitState.OPEN := by
    rw [hH]
    simp
  have hm : 0 < (b.failureDetector.config).minimumThroughput := by
    rw [hinv.fdConfig]
    exact hinv.valid.2.2.2.2
  have hOp : ∀ (T : ℚ) (msg : String),
      (b.failureDetector.recordFailure T msg).shouldOpenCircuit = true :=
    fun T msg => shouldOpen_recordFailure b.failureDetector hm
      (hinv.openJustified (Or.inr hH)).1 T msg
  constructor
  · intro hd
    refine ⟨?_, ?_, ?_⟩
    · rw [execute_of_not_open b now d _ hso, settleCall_of_ok b now d v hd,
        CircuitBreaker.onSuccess_eq]
      simp [hH]
    · rw [execute_of_not_open b now d _ hso, settleCall_of_err b now d m hd,
        CircuitBreaker.onFailure_eq]
      simp [hOp (now + d) m]
    · rw [execute_of_not_open b now d _ hso, settleCall_of_err b now d m hd,
        CircuitBreaker.onFailure_eq]
  · intro hd
    constructor
    · rw [execute_of_not_open b now d _ hso, settleCall_of_timeout b now d _ hd,
        CircuitBreaker.onFailure_eq]
      simp [hOp (now + b.config.timeout) timeoutMessage]
    · rw [execute_of_not_open b now d _ hso, settleCall_of_timeout b now d _ hd,
        CircuitBreaker.onFailure_eq]

/-- C5: a call whose operation takes longer than `timeout` surfaces a
`TimeoutError`, increments `failedCalls` (and `totalCalls`) by exactly one,
invokes the operation exactly once, and the operation's eventual result is
never consulted: the entire outcome of the call is the same whatever the
operation would later return. -/
theorem timeout_records_single_failure (b : CircuitBreaker) (now d : ℚ)
    (r : Except String ℚ)
    (hso : b.stateManager.currentState ≠ CircuitState.OPEN)
    (hd : b.config.timeout < d) :
    (b.execute now d r).result = .error (.timeoutError b.config.timeout) ∧
    (b.execute now d r).breaker.metricsCollector.failedCalls
      = b.metricsCollector.failedCalls + 1 ∧
    (b.execute now d r).breaker.metricsCollector.totalCalls
      = b.metricsCollector.totalCalls + 1 ∧
    (b.execute now d r).invocations = 1 ∧
    (∀ r2, b.execute now d r2 = b.execute now d r) := by
  have hd' : ¬ d ≤ b.config.timeout := not_le.mpr hd
  refine ⟨?_, ?_, ?_, ?_, ?_⟩
  · rw [execute_of_not_open b now d r hso, settleCall_of_timeout b now d r hd']
  · rw [execute_of_not_open b now d r hso, settleCall_of_timeout b now d r hd',
      CircuitBreaker.onFailure_eq]
    rfl
  · rw [execute_of_not_open b now d r hso, settleCall_of_timeout b now d r hd',
      CircuitBreaker.onFailure_eq]
    rfl
  · rw [execute_of_not_open b now d r hso, settleCall_of_timeout b now d r hd']
  · intro r2
    rw [execute_of_not_open b now d r hso, settleCall_of_timeout b now d r hd',
      execute_of_not_open b now d r2 hso, settleCall_of_timeout b now d r2 hd']

/-- C6 (amended): a failing call from `CLOSED` opens the circuit exactly when
the count threshold is met with the minimum-sample guard satisfied — the call
that brings the window's failure count to `failureThreshold` while the window
holds at least `minimumThroughput` records transitions `CLOSED → OPEN`; a
failing call after which the failure count is still below `failureThreshold`
and the window failure rate below `failureRateThreshold` leaves it
`CLOSED`. -/
theorem count_threshold_step (b : CircuitBreaker) (hinv : Inv b)
    (hC : b.stateManager.currentState = CircuitState.CLOSED)
    (now d : ℚ) (m : String) (hd : d ≤ b.config.timeout) :
    ((b.config.minimumThroughput ≤
        ((b.failureDetector.recordFailure (now + d) m).slidingWindow.size : ℚ) ∧
      b.config.failureThreshold ≤
        (countFailures (b.failureDetector.recordFailure (now + d) m).slidingWindow.records : ℚ)) →
      (b.execute now d (.error m)).breaker.stateManager.currentState
        = CircuitState.OPEN) ∧
    (((countFailures (b.failureDetector.recordFailure (now + d) m).slidingWindow.records : ℚ)
        < b.config.failureThreshold ∧
      (b.failureDetector.recordFailure (now + d) m).getFailureRate
        < b.config.failureRateThreshold) →
      (b.execute now d (.error m)).breaker.stateManager.currentState
        = CircuitState.CLOSED) := by
  have hso : b.stateManager.currentState ≠ CircuitState.OPEN := by
    rw [hC]
    simp
  have hfcfg : (b.failureDetector.recordFailure (now + d) m).config = b.config := by
    rw [show (b.failureDetector.recordFailure (now + d) m).config
        = b.failureDetector.config from rfl, hinv.fdConfig]
  constructor
  · rintro ⟨hsz, hcnt⟩
    have hOp : (b.failureDetector.recordFailure (now + d) m).shouldOpenCircuit = true := by
      rw [shouldOpenCircuit_iff, hfcfg]
      exact ⟨hsz, Or.inl hcnt⟩
    rw [execute_of_not_open b now d _ hso, settleCall_of_err b now d m hd,
      CircuitBreaker.onFailure_eq]
    simp [hOp]
  · rintro ⟨hcnt, hrate⟩
    have hOp : ¬ (b.failureDetector.recordFailure (now + d) m).shouldOpenCircuit = true := by
      rw [shouldOpenCircuit_iff, hfcfg]
      rintro ⟨hguard, hth | hth⟩
      · exact absurd hth (not_le.mpr hcnt)
      · have hlen : (b.failureDetector.recordFailure (now + d) m).slidingWindow.records.length ≠ 0 := by
          intro h0
          rw [h0] at hguard
          norm_num at hguard
          have := hinv.valid.2.2.2.2
          linarith
        have : (b.failureDetector.recordFailure (now + d) m).getFailureRate
            = (countFailures (b.failureDetector.recordFailure (now + d) m).slidingWindow.records : ℚ) /
              ((b.failureDetector.recordFailure (now + d) m).slidingWindow.records.length : ℚ) := by
          unfold FailureDetector.getFailureRate SlidingWindow.getAll countFailures
          rw [if_neg hlen]
        rw [this] at hrate
        exact absurd hth (not_le.mpr hrate)
    rw [execute_of_not_open b now d _ hso, settleCall_of_err b now d m hd,
      CircuitBreaker.onFailure_eq]
    simp only [Bool.not_eq_true] at hOp
    simp [hOp, hC]

/-- C10: every reachable `OPEN` breaker has a recorded `lastFailureTime`, so
the projected next-attempt time is defined and the probe-admission check
always runs its elapsed-time comparison, never the missing-failure-time
branch. -/
theorem open_state_has_failure_time (b : CircuitBreaker) (hR : Reachable b)
    (hOpen : b.stateManager.currentState = CircuitState.OPEN) :
    ∃ t, b.lastFailureTime = some t ∧
      b.getNextAttemptTime = some (t + b.config.resetTimeout) ∧
      ∀ now, b.shouldAttemptReset now = decide (now - t ≥ b.config.resetTimeout) := by
  have hinv := inv_reachable b hR
  have hsome := (hinv.openJustified (Or.inl hOpen)).2
  obtain ⟨t, ht⟩ := Option.isSome_iff_exists.mp hsome
  refine ⟨t, ht, ?_, ?_⟩
  · unfold CircuitBreaker.getNextAttemptTime
    simp [StateManager.getState, hOpen, ht]
  · intro now
    unfold CircuitBreaker.shouldAttemptReset
    rw [ht]

/-! ### Concrete evaluations

Batteries marks the arithmetic of `Rat` `@[irreducible]`; within this section
it is made reducible again so that runs of the breaker over concrete rational
inputs evaluate by `decide`. -/

section ConcreteEvaluations

set_option allowUnsafeReducibility true
attribute [local semireducible] Rat.mul Rat.add Rat.inv Rat.sub

/-- `sampleHalfOpenBreaker` satisfies the breaker invariant. -/
theorem inv_sampleHalfOpenBreaker : Inv sampleHalfOpenBreaker := by
  refine ⟨by decide, rfl, by decide, ?_, ?_⟩
  · intro h
    exact absurd h (by decide)
  · intro _
    exact ⟨by decide, by decide⟩

/-- C6, counterexample to the claim as stated: `failureCountThreshold = 2`,
`minimumSampleSize = 4`, rate threshold 1 never reached (the window rate stays
at 2/3 < 1). After one success and two failures the window holds exactly
`failureCountThreshold` failures, yet the circuit is still `CLOSED`: the
minimum-sample guard (3 records < 4) blocks the transition the claim says
happens exactly at the k-th failure. -/
theorem count_threshold_counterexample :
    guardRun.stateManager.currentState = CircuitState.CLOSED ∧
    countFailures guardRun.failureDetector.slidingWindow.records = 2 ∧
    guardRun.config.failureThreshold = 2 ∧
    guardRun.failureDetector.getFailureRate < guardRun.config.failureRateThreshold := by
  refine ⟨by decide, by decide, by decide, by decide⟩

/-- C1 at a concrete input: the breaker that one failure opened denies a call
at +50ms with the projected retry time and runs the probe at +150ms. -/
theorem execute_open_circuit_gate_witness :
    sampleOpenBreaker.execute 50 0 (.ok 7) =
      { result := .error (.circuitBreakerOpen
          (some ((0 : ℚ) + sampleOpenBreaker.config.resetTimeout)) CircuitState.OPEN)
        breaker := sampleOpenBreaker, invocations := 0 } ∧
    (sampleOpenBreaker.execute 150 0 (.ok 7)).invocations = 1 :=
  ⟨(execute_open_circuit_gate sampleOpenBreaker 0 50 0 (.ok 7)
      (by decide) (by decide)).1 (by decide),
   ((execute_open_circuit_gate sampleOpenBreaker 0 150 0 (.ok 7)
      (by decide) (by decide)).2 (by decide)).2⟩

/-- C3 at a concrete input: one failure under `minimumThroughput = 2` leaves
the circuit closed. -/
theorem no_open_before_minimum_samples_witness :
    minRun.stateManager.currentState ≠ CircuitState.OPEN :=
  no_open_before_minimum_samples minConfig 0 [.exec 0 0 (.error "e")] minRun
    (by decide) (by decide)

/-- C4 at a concrete input: the half-open probe closes the circuit on success
and re-opens it (stamping the failure time) on failure. -/
theorem halfopen_probe_outcome_witness :
    (sampleHalfOpenBreaker.execute 10 1 (.ok 7)).breaker.stateManager.currentState
      = CircuitState.CLOSED ∧
    (sampleHalfOpenBreaker.execute 10 1 (.error "x")).breaker.stateManager.currentState
      = CircuitState.OPEN ∧
    (sampleHalfOpenBreaker.execute 10 1 (.error "x")).breaker.lastFailureTime
      = some ((10 : ℚ) + 1) :=
  (halfopen_probe_outcome sampleHalfOpenBreaker inv_sampleHalfOpenBreaker
    (by decide) 10 1 7 "x").1 (by decide)

/-- C5 at a concrete input: a 2000ms operation under a 1000ms timeout is one
timeout failure, with exactly one recorded failure and one invocation. -/
theorem timeout_records_single_failure_witness :
    (freshBreaker.execute 0 2000 (.ok 7)).result
      = .error (.timeoutError freshBreaker.config.timeout) ∧
    (freshBreaker.execute 0 2000 (.ok 7)).breaker.metricsCollector.failedCalls
      = freshBreaker.metricsCollector.failedCalls + 1 ∧
    (freshBreaker.execute 0 2000 (.ok 7)).breaker.metricsCollector.totalCalls
      = freshBreaker.metricsCollector.totalCalls + 1 ∧
    (freshBreaker.execute 0 2000 (.ok 7)).invocations = 1 :=
  (fun h => ⟨h.1, h.2.1, h.2.2.1, h.2.2.2.1⟩)
    (timeout_records_single_failure freshBreaker 0 2000 (.ok 7) (by decide) (by decide))

/-- C6 (amended) at concrete inputs: under `failureCountThreshold = 2`,
`minimumSampleSize = 3`, the second failure (window: success, failure,
failure — guard met, count met) opens the circuit. -/
theorem count_threshold_step_witness :
    (stepRun.execute 2 0 (.error "e")).breaker.stateManager.currentState
      = CircuitState.OPEN :=
  (count_threshold_step stepRun
    (inv_reachable stepRun
      ⟨stepConfig, 0, [.exec 0 0 (.ok 1), .exec 1 0 (.error "e")], by decide⟩)
    (by decide) 2 0 "e" (by decide)).1 (by decide)

/-- C10 at a concrete input: the breaker one failure opened has its failure
time, its projected next-attempt time, and a probe-admission check that only
compares elapsed time. -/
theorem open_state_has_failure_time_witness :
    ∃ t, sampleOpenBreaker.lastFailureTime = some t ∧
      sampleOpenBreaker.getNextAttemptTime
        = some (t + sampleOpenBreaker.config.resetTimeout) ∧
      ∀ now, sampleOpenBreaker.shouldAttemptReset now
        = decide (now - t ≥ sampleOpenBreaker.config.resetTimeout) :=
  open_state_has_failure_time sampleOpenBreaker
    ⟨probeConfig, 0, [.exec 0 0 (.error "boom")], by decide⟩ (by decide)

end ConcreteEvaluations

end Bulwark
